import Mathlib

/-!
Shallow embedding of the response-dispatch and streaming-relay core of the
openai-proxy-lambda repository (src/main.go), together with theorems that
check the natural-language specification against it.

External collaborators (the OpenAI HTTP client, the API-Gateway management
client, `os.Getenv`, `json.Unmarshal`) are modelled as an oracle record whose
fields carry the outcome each external call would return; the embedded
functions reproduce the Go control flow over those outcomes and additionally
record the trace of upstream calls made and the payloads successfully pushed
to the websocket connection.
-/

namespace OpenAIProxy

/-! Constants from src/main.go lines 22-34. -/

def defaultModel : String := "gpt-3.5-turbo"

def statusCodeOK : Nat := 200

def statusCodeBadRequest : Nat := 400

def statusCodeServerError : Nat := 500

def responseTypeInt : String := "int"

def responseTypeString : String := "string"

def responseTypeFull : String := "full"

def responseTypeStream : String := "stream"

def endStreamMessage : String := "<END>"

/-! Data model: the inbound request shape (src/main.go lines 36-44) and the
relevant parts of the go-openai response types. -/

structure chatMessage where
  role : String
  content : String
  deriving DecidableEq

structure Request where
  promptTemplate : String
  messages : List chatMessage
  responseType : String
  deriving DecidableEq

structure Model where
  id : String
  deriving DecidableEq

structure ChatCompletionMessage where
  role : String
  content : String
  deriving DecidableEq

structure ChatCompletionChoice where
  message : ChatCompletionMessage
  deriving DecidableEq

structure ChatCompletionResponse where
  choices : List ChatCompletionChoice
  deriving DecidableEq

structure ChatCompletionStreamChoice where
  delta : ChatCompletionMessage
  deriving DecidableEq

structure ChatCompletionStreamResponse where
  choices : List ChatCompletionStreamChoice
  deriving DecidableEq

/-- The zero value of `openai.ChatCompletionResponse`, returned by
`initOpenAIRequest` on every error path: its choice list is empty. -/
def emptyResponse : ChatCompletionResponse := ⟨[]⟩

/-! Confusable-character substitution (src/main.go lines 65-88).
Character codes: 8220 and 8221 are the curly double quotes (replaced by the
ASCII double quote, code 34); 8216 and 8217 are the curly single quotes and
900 is the Greek tonos mark (all replaced by the ASCII apostrophe, code 39). -/

def getConfusables : List (Char × Char) :=
  [(Char.ofNat 8220, Char.ofNat 34),
   (Char.ofNat 8221, Char.ofNat 34),
   (Char.ofNat 8216, Char.ofNat 39),
   (Char.ofNat 8217, Char.ofNat 39),
   (Char.ofNat 900, Char.ofNat 39)]

/-- Replace confusable UTF-8 characters in s with their ASCII replacements
(src/main.go lines 76-88): every rune of the input is looked up in the
confusables map and replaced when present, kept otherwise. -/
def replaceConfusables (s : String) : String :=
  String.mk (s.data.map (fun ch =>
    match getConfusables.lookup ch with
    | some replacement => replacement
    | none => ch))

/-! Text extraction. `getIntOpenAIResponse` uses the Go regular expression
matching two literal open brackets, a captured nonempty run of decimal
digits, and two literal close brackets (src/main.go line 372);
`getStringOpenAIResponse` uses the one capturing one-or-more word characters
followed by zero-or-more whitespace characters, repeated (line 400).
`FindStringSubmatch` returns the leftmost match. The functions below embed
those regular expressions: a match is attempted at each position from the
left; at a position the match succeeds exactly when the two open brackets
are followed by a maximal nonempty run of the character class and then
immediately by the two close brackets (by the shape of the patterns,
backtracking inside the run can never produce a match that the maximal run
misses, since the closing bracket belongs to neither character class). -/

def isCloseBrackets : List Char → Bool
  | c1 :: c2 :: _ => c1 == ']' && c2 == ']'
  | _ => false

def matchIntAt : List Char → Option (List Char)
  | c1 :: c2 :: rest =>
    if c1 == '[' && c2 == '[' then
      let run := rest.takeWhile Char.isDigit
      if run.isEmpty then none
      else if isCloseBrackets (rest.dropWhile Char.isDigit) then some run
      else none
    else none
  | _ => none

def findIntMatch : List Char → Option (List Char)
  | [] => none
  | c :: cs =>
    match matchIntAt (c :: cs) with
    | some run => some run
    | none => findIntMatch cs

/-- The Go regexp word class: ASCII letters, digits and underscore. -/
def goWordChar (c : Char) : Bool := c.isAlphanum || c == '_'

/-- The Go regexp whitespace class: space, tab, newline, form feed,
carriage return (codes 32, 9, 10, 12, 13). -/
def goSpaceChar (c : Char) : Bool :=
  c == ' ' || c == Char.ofNat 9 || c == Char.ofNat 10 ||
    c == Char.ofNat 12 || c == Char.ofNat 13

def matchStringAt : List Char → Option (List Char)
  | c1 :: c2 :: rest =>
    if c1 == '[' && c2 == '[' then
      let run := rest.takeWhile (fun c => goWordChar c || goSpaceChar c)
      match run with
      | [] => none
      | r :: rs =>
        if goWordChar r &&
            isCloseBrackets (rest.dropWhile (fun c => goWordChar c || goSpaceChar c))
        then some (r :: rs)
        else none
    else none
  | _ => none

def findStringMatch : List Char → Option (List Char)
  | [] => none
  | c :: cs =>
    match matchStringAt (c :: cs) with
    | some run => some run
    | none => findStringMatch cs

/-- Interpret a run of decimal digits as a natural number (the spec reads
the captured digit run as an integer value). -/
def digitsToNat (l : List Char) : Nat :=
  l.foldl (fun a c => 10 * a + (c.toNat - 48)) 0

/-! Upstream-call trace and the external-world oracle. -/

/-- One outbound call to the OpenAI service: a model listing
(`client.ListModels`), a chat completion (`client.CreateChatCompletion`,
carrying the model and message sequence actually sent), or a streaming
completion (`client.CreateChatCompletionStream`). -/
inductive UpstreamCall where
  | listModels
  | chatCompletion (model : String) (messages : List ChatCompletionMessage)
  | chatStream (model : String) (messages : List ChatCompletionMessage)
  deriving DecidableEq

/-- Outcomes of the external calls the Go code makes, fixed per inbound
call: the environment (`os.Getenv`), the configured model name
(`config.OpenAIModel`), the model-listing result, the chat-completion
result, the stream-creation result, the sequence of stream chunks received
before the terminal `Recv` outcome (`none` = `io.EOF`, `some m` = a
non-EOF receive error with message `m`), and the outcome of the k-th
`PostToConnection` call. -/
structure Oracle where
  getenv : String → String
  configModel : String
  listModels : Except String (List Model)
  completion : Except String ChatCompletionResponse
  streamCreate : Except String Unit
  streamChunks : List ChatCompletionStreamResponse
  streamTerminal : Option String
  post : Nat → Except String Unit

/-- isValidModel checks if the specified model ID is valid
(src/main.go lines 212-220). -/
def isValidModel (models : List Model) (id : String) : Bool :=
  models.any (fun model => model.id == id)

/-- Result of `getModel` (src/main.go lines 227-252): Go returns a pair
(string, error); the embedding additionally records the upstream calls the
function made. -/
structure GetModelResult where
  model : String
  err : Option String
  calls : List UpstreamCall

/-- getModel gets the OpenAI model ID either from environment variables or
defaults (src/main.go lines 227-252): empty configured name, a failed model
listing, or a name absent from the list all fall back to the default model,
and the returned error is nil on every path. The model listing is only
requested when the configured name is nonempty. -/
def getModel (configModel : String) (availableModels : Except String (List Model)) :
    GetModelResult :=
  if configModel = "" then ⟨defaultModel, none, []⟩
  else
    match availableModels with
    | .error _ => ⟨defaultModel, none, [.listModels]⟩
    | .ok models =>
      if !isValidModel models configModel then ⟨defaultModel, none, [.listModels]⟩
      else ⟨configModel, none, [.listModels]⟩

/-- The message sequence sent upstream (src/main.go lines 269-275): one
system message holding the resolved prompt template, then every caller turn
in order with its original role. -/
def toCompletionMessages (promptTemplate : String) (chatMessages : List chatMessage) :
    List ChatCompletionMessage :=
  ⟨"system", promptTemplate⟩ :: chatMessages.map (fun v => ⟨v.role, v.content⟩)

/-- Result of `initOpenAIRequest`: the response-or-error pair, plus the
trace of upstream calls made. -/
structure InitResult where
  response : Except String ChatCompletionResponse
  calls : List UpstreamCall

/-- initOpenAIRequest initializes an OpenAI request and sends it to OpenAI
(src/main.go lines 254-294): it resolves the model (which may itself call
the model listing), then reads the prompt template from the environment
variable named by the request and fails if it is empty, then sends the
assembled messages to the chat-completion endpoint. -/
def initOpenAIRequest (o : Oracle) (promptEnvVariable : String)
    (chatMessages : List chatMessage) : InitResult :=
  let gm := getModel o.configModel o.listModels
  match gm.err with
  | some e => ⟨.error ("Can't get the OpenAI model: " ++ e), gm.calls⟩
  | none =>
    let promptTemplate := o.getenv promptEnvVariable
    if promptTemplate = "" then
      ⟨.error ("Prompt not found in the environment variable " ++ promptEnvVariable),
        gm.calls⟩
    else
      let msgs := toCompletionMessages promptTemplate chatMessages
      match o.completion with
      | .error e =>
        ⟨.error ("Error sending OpenAI API request: " ++ e),
          gm.calls ++ [.chatCompletion gm.model msgs]⟩
      | .ok response => ⟨.ok response, gm.calls ++ [.chatCompletion gm.model msgs]⟩

/-- initOpenAIStream initializes an OpenAI request for stream response and
sends it to OpenAI (src/main.go lines 296-340); same shape as
`initOpenAIRequest` but creating a stream. -/
def initOpenAIStream (o : Oracle) (promptEnvVariable : String)
    (chatMessages : List chatMessage) : Except String Unit × List UpstreamCall :=
  let gm := getModel o.configModel o.listModels
  match gm.err with
  | some e => (.error ("Can't get the OpenAI model: " ++ e), gm.calls)
  | none =>
    let promptTemplate := o.getenv promptEnvVariable
    if promptTemplate = "" then
      (.error ("Prompt not found in the environment variable " ++ promptEnvVariable),
        gm.calls)
    else
      let msgs := toCompletionMessages promptTemplate chatMessages
      match o.streamCreate with
      | .error e =>
        (.error ("Error sending OpenAI API request: " ++ e),
          gm.calls ++ [.chatStream gm.model msgs])
      | .ok _ => (.ok (), gm.calls ++ [.chatStream gm.model msgs])

/-- How a Go strategy function terminates: a nil error, a non-nil error
with its message, or a runtime panic (the embedding uses it for the
out-of-range index accesses `Choices[0]` on an empty choice list). -/
inductive GoResult where
  | ok
  | err (msg : String)
  | panicked (msg : String)
  deriving DecidableEq

/-- Result of one strategy function: the payloads successfully pushed to
the websocket connection in order, the Go return value, and the trace of
upstream calls. -/
structure StratResult where
  pushes : List String
  result : GoResult
  calls : List UpstreamCall
  deriving DecidableEq

/-- getFullOpenAIResponse (src/main.go lines 342-360). Faithful to the
source: `reply := response.Choices[0].Message.Content` is evaluated BEFORE
the error check, so an error response (whose zero value has no choices)
panics; and after a successful push the function still falls through to
`return fmt.Errorf("Can't get OpenAI API response: ...")`. -/
def getFullOpenAIResponse (o : Oracle) (req : Request) : StratResult :=
  let ir := initOpenAIRequest o req.promptTemplate req.messages
  let response :=
    match ir.response with
    | .ok r => r
    | .error _ => emptyResponse
  match response.choices with
  | [] => ⟨[], .panicked "runtime error: index out of range", ir.calls⟩
  | choice :: _ =>
    let reply := choice.message.content
    match ir.response with
    | .error e => ⟨[], .err ("Error sending OpenAI API request: " ++ e), ir.calls⟩
    | .ok _ =>
      match o.post 0 with
      | .error pe =>
        ⟨[], .err ("Can't post response to websocket: " ++ reply ++ "\nError: " ++ pe),
          ir.calls⟩
      | .ok _ => ⟨[reply], .err ("Can't get OpenAI API response: " ++ reply), ir.calls⟩

/-- getIntOpenAIResponse (src/main.go lines 362-388). Faithful to the
source: on a regexp match the digit run is pushed, then the function falls
through to `return fmt.Errorf("Can't parse OpenAI API response: ...")`
whether or not the push happened. -/
def getIntOpenAIResponse (o : Oracle) (req : Request) : StratResult :=
  let ir := initOpenAIRequest o req.promptTemplate req.messages
  match ir.response with
  | .error e => ⟨[], .err ("Error sending OpenAI API request: " ++ e), ir.calls⟩
  | .ok response =>
    match response.choices with
    | [] => ⟨[], .panicked "runtime error: index out of range", ir.calls⟩
    | choice :: _ =>
      let reply := choice.message.content
      match findIntMatch reply.data with
      | some run =>
        match o.post 0 with
        | .error pe =>
          ⟨[], .err ("Can't post response to websocket: " ++ reply ++ "\nError: " ++ pe),
            ir.calls⟩
        | .ok _ =>
          ⟨[String.mk run], .err ("Can't parse OpenAI API response: " ++ reply), ir.calls⟩
      | none => ⟨[], .err ("Can't parse OpenAI API response: " ++ reply), ir.calls⟩

/-- getStringOpenAIResponse (src/main.go lines 390-416); identical control
flow to the integer strategy with the word-sequence pattern. -/
def getStringOpenAIResponse (o : Oracle) (req : Request) : StratResult :=
  let ir := initOpenAIRequest o req.promptTemplate req.messages
  match ir.response with
  | .error e => ⟨[], .err ("Error sending OpenAI API request: " ++ e), ir.calls⟩
  | .ok response =>
    match response.choices with
    | [] => ⟨[], .panicked "runtime error: index out of range", ir.calls⟩
    | choice :: _ =>
      let reply := choice.message.content
      match findStringMatch reply.data with
      | some run =>
        match o.post 0 with
        | .error pe =>
          ⟨[], .err ("Can't post response to websocket: " ++ reply ++ "\nError: " ++ pe),
            ir.calls⟩
        | .ok _ =>
          ⟨[String.mk run], .err ("Can't parse OpenAI API response: " ++ reply), ir.calls⟩
      | none => ⟨[], .err ("Can't parse OpenAI API response: " ++ reply), ir.calls⟩

/-- The receive loop of getStreamOpenAIResponse (src/main.go lines
432-454): each chunk in turn is read; `io.EOF` pushes the sentinel and
returns nil; a non-EOF receive error returns a stream error; otherwise the
chunk's first delta content is passed through `replaceConfusables` and
pushed. `k` counts the posts already made (it indexes the post oracle). -/
def streamLoop (post : Nat → Except String Unit) :
    List ChatCompletionStreamResponse → Option String → Nat → List String × GoResult
  | [], none, k =>
    match post k with
    | .ok _ => ([endStreamMessage], .ok)
    | .error e => ([], .err ("Error requesting OpenAI API stream: " ++ e))
  | [], some m, _ => ([], .err ("Stream error: " ++ m))
  | chunk :: rest, terminal, k =>
    match chunk.choices with
    | [] => ([], .panicked "runtime error: index out of range")
    | choice :: _ =>
      let data := replaceConfusables choice.delta.content
      match post k with
      | .error e => ([], .err ("Error requesting OpenAI API stream: " ++ e))
      | .ok _ =>
        let r := streamLoop post rest terminal (k + 1)
        (data :: r.1, r.2)

/-- getStreamOpenAIResponse (src/main.go lines 418-455). -/
def getStreamOpenAIResponse (o : Oracle) (req : Request) : StratResult :=
  let is := initOpenAIStream o req.promptTemplate req.messages
  match is.1 with
  | .error e => ⟨[], .err ("Error requesting OpenAI API stream: " ++ e), is.2⟩
  | .ok _ =>
    let r := streamLoop o.post o.streamChunks o.streamTerminal 0
    ⟨r.1, r.2, is.2⟩

/-- A stream chunk carrying one choice whose delta content is the given
fragment text, as the upstream service produces during normal streaming. -/
def mkChunk (fragment : String) : ChatCompletionStreamResponse :=
  ⟨[⟨⟨"", fragment⟩⟩]⟩

/-! The request handler (src/main.go lines 127-195). -/

structure APIGatewayProxyResponse where
  statusCode : Nat
  body : String
  deriving DecidableEq

/-- How `handleRequest` terminates: with a proxy response, or by
propagating a runtime panic out of a strategy. -/
inductive HandlerOutcome where
  | resp (r : APIGatewayProxyResponse)
  | panicked (msg : String)
  deriving DecidableEq

structure HandleResult where
  outcome : HandlerOutcome
  pushes : List String
  calls : List UpstreamCall
  deriving DecidableEq

/-- Mapping a strategy's return value to the handler's response
(src/main.go lines 175-179): a non-nil error becomes a 500 response, nil
becomes a bare 200 response. -/
def finishStrategy (s : StratResult) : HandleResult :=
  match s.result with
  | .ok => ⟨.resp ⟨statusCodeOK, ""⟩, s.pushes, s.calls⟩
  | .err m =>
    ⟨.resp ⟨statusCodeServerError, "Error handling request: " ++ m⟩, s.pushes, s.calls⟩
  | .panicked m => ⟨.panicked m, s.pushes, s.calls⟩

/-- handleRequest (src/main.go lines 151-180). Its first step,
`parseRequestBody`, is Go's `json.Unmarshal` on the inbound body — an
external library call, modelled here by its outcome `parsed`: an error for
a body that is not valid JSON for the request shape, otherwise the decoded
request. A parse error returns a 400 response before anything else runs;
then the response type selects the strategy exactly as the Go switch does,
with an unknown value rejected before any strategy is invoked. -/
def handleRequest (o : Oracle) (parsed : Except String Request) : HandleResult :=
  match parsed with
  | .error e =>
    ⟨.resp ⟨statusCodeBadRequest, "Error parsing request JSON: " ++ e⟩, [], []⟩
  | .ok reqBody =>
    if reqBody.responseType = "int" then finishStrategy (getIntOpenAIResponse o reqBody)
    else if reqBody.responseType = "string" then
      finishStrategy (getStringOpenAIResponse o reqBody)
    else if reqBody.responseType = "full" then
      finishStrategy (getFullOpenAIResponse o reqBody)
    else if reqBody.responseType = "stream" then
      finishStrategy (getStreamOpenAIResponse o reqBody)
    else
      ⟨.resp ⟨statusCodeServerError,
          "Incorrect response type: " ++ reqBody.responseType⟩, [], []⟩

/-! Helper lemmas. -/

/-- `getModel` returns a nil error on every path (src/main.go lines
227-252: each return statement of the function passes nil as the error). -/
theorem getModel_err_none (cm : String) (lm : Except String (List Model)) :
    (getModel cm lm).err = none := by
  unfold getModel
  split
  · rfl
  · split
    · rfl
    · split <;> rfl

/-- The upstream trace of `getModel` is empty when the configured model
name is empty, and the single model-listing call otherwise. -/
theorem getModel_calls (cm : String) (lm : Except String (List Model)) :
    (getModel cm lm).calls = [] ∨ (getModel cm lm).calls = [UpstreamCall.listModels] := by
  unfold getModel
  split
  · exact Or.inl rfl
  · split
    · exact Or.inr rfl
    · split <;> exact Or.inr rfl

/-- With every post succeeding, a run of the stream receive loop over
well-formed chunks that ends in `io.EOF` pushes each fragment (confusables
replaced) in order followed by the sentinel, and returns nil. -/
theorem streamLoop_normal (post : Nat → Except String Unit)
    (hpost : ∀ k, post k = .ok ()) (frags : List String) (k : Nat) :
    streamLoop post (frags.map mkChunk) none k =
      (frags.map replaceConfusables ++ [endStreamMessage], .ok) := by
  induction frags generalizing k with
  | nil => simp [streamLoop, hpost k]
  | cons f fs ih => simp [streamLoop, mkChunk, hpost k, ih (k + 1)]

/-- With every post succeeding, a run of the stream receive loop over
well-formed chunks that ends in a non-EOF receive error pushes each
fragment (confusables replaced) in order — no sentinel — and returns the
stream error. -/
theorem streamLoop_midfail (post : Nat → Except String Unit)
    (hpost : ∀ k, post k = .ok ()) (frags : List String) (m : String) (k : Nat) :
    streamLoop post (frags.map mkChunk) (some m) k =
      (frags.map replaceConfusables, .err ("Stream error: " ++ m)) := by
  induction frags generalizing k with
  | nil => simp [streamLoop]
  | cons f fs ih => simp [streamLoop, mkChunk, hpost k, ih (k + 1)]

/-- A text containing no open bracket at all has no word-sequence match. -/
theorem findStringMatch_no_bracket (l : List Char) :
    (∀ ch ∈ l, ch ≠ '[') → findStringMatch l = none := by
  induction l with
  | nil => intro _; rfl
  | cons c cs ih =>
    intro h
    have hc : (c == '[') = false :=
      beq_eq_false_iff_ne.mpr (h c (List.mem_cons_self c cs))
    have hat : matchStringAt (c :: cs) = none := by
      cases cs with
      | nil => rfl
      | cons c2 cs2 => simp [matchStringAt, hc]
    simp [findStringMatch, hat, ih (fun ch hm => h ch (List.mem_cons_of_mem c hm))]

/-- A text containing no open bracket at all has no integer match. -/
theorem findIntMatch_no_bracket (l : List Char) :
    (∀ ch ∈ l, ch ≠ '[') → findIntMatch l = none := by
  induction l with
  | nil => intro _; rfl
  | cons c cs ih =>
    intro h
    have hc : (c == '[') = false :=
      beq_eq_false_iff_ne.mpr (h c (List.mem_cons_self c cs))
    have hat : matchIntAt (c :: cs) = none := by
      cases cs with
      | nil => rfl
      | cons c2 cs2 => simp [matchIntAt, hc]
    simp [findIntMatch, hat, ih (fun ch hm => h ch (List.mem_cons_of_mem c hm))]

/-! Concrete inputs used by the claim theorems and witnesses. -/

/-- Oracle for a successful int-mode call: no configured model, a
successful completion whose answer contains a delimited number, and a
connection that accepts every post. -/
def oracleIntOk : Oracle :=
  ⟨fun _ => "SYS", "", .ok [], .ok ⟨[⟨⟨"assistant", "The result is [[123]]."⟩⟩]⟩,
    .ok (), [], none, fun _ => .ok ()⟩

def reqInt : Request := ⟨"PROMPT_INT", [⟨"user", "Hi"⟩], "int"⟩

/-- Oracle for an int-mode call whose upstream answer contains no
delimited number. -/
def oracleIntNoMatch : Oracle :=
  ⟨fun _ => "SYS", "", .ok [], .ok ⟨[⟨⟨"assistant", "No number here."⟩⟩]⟩,
    .ok (), [], none, fun _ => .ok ()⟩

/-- Oracle for a full-mode call whose upstream completion call fails. -/
def oracleFullFail : Oracle :=
  ⟨fun _ => "SYS", "", .ok [], .error "connection refused", .ok (), [], none,
    fun _ => .ok ()⟩

def reqFull : Request := ⟨"PROMPT_FULL", [⟨"user", "Hi"⟩], "full"⟩

/-! Claim C1. -/

/-- Claim C1 (code_bug evidence): the claim says a call reports success
exactly when the payload was delivered, and in particular never reports
failure after a successful push. Evaluating the int-mode strategy on an
upstream answer containing a delimited number, with every post succeeding:
the digit run is pushed to the connection, yet the strategy still returns a
non-nil error (src/main.go line 387 runs unconditionally after the push of
line 381), so the handler reports the call as failed after delivering the
payload. -/
theorem c1_push_then_spurious_failure :
    getIntOpenAIResponse oracleIntOk reqInt =
      ⟨["123"], .err "Can't parse OpenAI API response: The result is [[123]].",
        [.chatCompletion "gpt-3.5-turbo" [⟨"system", "SYS"⟩, ⟨"user", "Hi"⟩]]⟩ := by
  decide

/-! Claim C8. -/

/-- Claim C8 (code_bug evidence): the claim says the access to
`Choices[0]` in full mode is in-bounds even for a failing upstream call.
In the source (src/main.go line 345) the access happens before the error
check, and a failing call yields the zero-value response whose choice list
is empty, so the access is out of bounds and the strategy panics instead
of returning the upstream error. -/
theorem c8_full_mode_choices_panic :
    getFullOpenAIResponse oracleFullFail reqFull =
      ⟨[], .panicked "runtime error: index out of range",
        [.chatCompletion "gpt-3.5-turbo" [⟨"system", "SYS"⟩, ⟨"user", "Hi"⟩]]⟩ := by
  decide

/-! Claim C5. -/

/-- Claim C5: an inbound request whose response type is none of int,
string, full, or stream is rejected with the incorrect-response-type
error (the InvalidMode failure, a 500 response carrying the offending
value) with zero upstream calls made and nothing pushed: the Go switch
(src/main.go lines 162-173) returns from its default branch before any
strategy — and hence any upstream work — runs. -/
theorem c5_invalid_mode (o : Oracle) (req : Request)
    (h1 : req.responseType ≠ "int") (h2 : req.responseType ≠ "string")
    (h3 : req.responseType ≠ "full") (h4 : req.responseType ≠ "stream") :
    handleRequest o (.ok req) =
      ⟨.resp ⟨statusCodeServerError, "Incorrect response type: " ++ req.responseType⟩,
        [], []⟩ := by
  simp [handleRequest, h1, h2, h3, h4]

/-- Witness for C5 at the concrete response type value "bogus". -/
theorem c5_invalid_mode_witness :
    handleRequest oracleIntOk (.ok ⟨"P", [], "bogus"⟩) =
      ⟨.resp ⟨statusCodeServerError, "Incorrect response type: " ++ "bogus"⟩, [], []⟩ :=
  c5_invalid_mode oracleIntOk ⟨"P", [], "bogus"⟩ (by decide) (by decide) (by decide)
    (by decide)

/-! Claim C6. -/

/-- Claim C6: model resolution never surfaces an error — the returned Go
error is nil on every path — and the fixed default model is silently
substituted whenever the requested name is empty, the advertised list
cannot be fetched, or the name is absent from the list; a name present in
the list is kept. -/
theorem c6_model_resolution (cm : String) (lm : Except String (List Model)) :
    (getModel cm lm).err = none
    ∧ (cm = "" → (getModel cm lm).model = defaultModel)
    ∧ (∀ e, lm = .error e → (getModel cm lm).model = defaultModel)
    ∧ (∀ ms, lm = .ok ms → isValidModel ms cm = false →
        (getModel cm lm).model = defaultModel)
    ∧ (∀ ms, lm = .ok ms → cm ≠ "" → isValidModel ms cm = true →
        (getModel cm lm).model = cm) := by
  refine ⟨getModel_err_none cm lm, ?_, ?_, ?_, ?_⟩
  · intro h
    simp [getModel, h]
  · intro e he
    subst he
    by_cases h : cm = "" <;> simp [getModel, h]
  · intro ms hms hval
    subst hms
    by_cases h : cm = "" <;> simp [getModel, h, hval]
  · intro ms hms hcm hval
    subst hms
    simp [getModel, hcm, hval]

/-- Witness for C6: the requested name "gpt-9" is absent from an empty
advertised list, the resolution surfaces no error, and the default model
is substituted. -/
theorem c6_model_resolution_witness :
    (getModel "gpt-9" (.ok [])).err = none
    ∧ (getModel "gpt-9" (.ok [])).model = defaultModel :=
  ⟨(c6_model_resolution "gpt-9" (.ok [])).1,
    (c6_model_resolution "gpt-9" (.ok [])).2.2.2.1 [] rfl (by decide)⟩

/-! Claim C10. -/

/-- Claim C10: when the inbound body fails to parse as the request shape
(`json.Unmarshal` returns an error, modelled by the `.error` outcome), the
handler returns a 400 response carrying the parse-error message, makes no
upstream call, and pushes nothing to the connection (src/main.go lines
152-156 return before any client is used). -/
theorem c10_bad_json (o : Oracle) (e : String) :
    handleRequest o (.error e) =
      ⟨.resp ⟨statusCodeBadRequest, "Error parsing request JSON: " ++ e⟩, [], []⟩ :=
  rfl

/-! Claims C2 and C9: the streaming strategy. -/

/-- Oracle for a stream-mode call that completes normally with the two
fragments of the spec scenario. -/
def oracleStreamOk : Oracle :=
  ⟨fun _ => "SYS", "", .ok [], .ok emptyResponse, .ok (),
    ["He", "llo"].map mkChunk, none, fun _ => .ok ()⟩

/-- Oracle for a stream-mode call whose receive loop fails after one
fragment with a non-EOF error. -/
def oracleStreamFail : Oracle :=
  ⟨fun _ => "SYS", "", .ok [], .ok emptyResponse, .ok (),
    ["He"].map mkChunk, some "connection reset", fun _ => .ok ()⟩

def reqStream : Request := ⟨"PROMPT_STREAM", [], "stream"⟩

/-- Claim C2: a stream-mode call that completes normally (the upstream
fragments arrive as well-formed chunks, the terminal receive is `io.EOF`,
and every post succeeds) pushes exactly the upstream fragments in arrival
order, each passed through the confusable-punctuation substitution,
followed by exactly one sentinel push of the fixed end-of-stream marker;
and the call returns nil. -/
theorem c2_stream_delivery (o : Oracle) (req : Request) (frags : List String)
    (hprompt : o.getenv req.promptTemplate ≠ "")
    (hcreate : o.streamCreate = .ok ())
    (hchunks : o.streamChunks = frags.map mkChunk)
    (hterm : o.streamTerminal = none)
    (hpost : ∀ k, o.post k = .ok ()) :
    (getStreamOpenAIResponse o req).pushes =
      frags.map replaceConfusables ++ [endStreamMessage]
    ∧ (getStreamOpenAIResponse o req).result = .ok := by
  unfold getStreamOpenAIResponse initOpenAIStream
  simp [getModel_err_none, hprompt, hcreate, hchunks, hterm,
    streamLoop_normal o.post hpost frags 0]

/-- Witness for C2 at the spec scenario fragments "He", "llo". -/
theorem c2_stream_delivery_witness :
    (getStreamOpenAIResponse oracleStreamOk reqStream).pushes =
      ["He", "llo"].map replaceConfusables ++ [endStreamMessage]
    ∧ (getStreamOpenAIResponse oracleStreamOk reqStream).result = .ok :=
  c2_stream_delivery oracleStreamOk reqStream ["He", "llo"] (by decide) rfl rfl rfl
    (fun _ => rfl)

/-- Claim C9: in stream mode the sentinel is pushed only upon the
upstream's normal end-of-stream signal. When the terminal receive outcome
is a non-EOF error, the call pushes exactly the fragments received before
the failure (no sentinel) and terminates with the stream error; when the
terminal outcome is EOF, the pushes are the fragments followed by exactly
one sentinel. -/
theorem c9_sentinel_discipline (o : Oracle) (req : Request) (frags : List String)
    (hprompt : o.getenv req.promptTemplate ≠ "")
    (hcreate : o.streamCreate = .ok ())
    (hchunks : o.streamChunks = frags.map mkChunk)
    (hpost : ∀ k, o.post k = .ok ()) :
    (∀ m, o.streamTerminal = some m →
      (getStreamOpenAIResponse o req).pushes = frags.map replaceConfusables
      ∧ (getStreamOpenAIResponse o req).result = .err ("Stream error: " ++ m))
    ∧ (o.streamTerminal = none →
      (getStreamOpenAIResponse o req).pushes =
        frags.map replaceConfusables ++ [endStreamMessage]
      ∧ (getStreamOpenAIResponse o req).result = .ok) := by
  constructor
  · intro m hm
    unfold getStreamOpenAIResponse initOpenAIStream
    simp [getModel_err_none, hprompt, hcreate, hchunks, hm,
      streamLoop_midfail o.post hpost frags m 0]
  · intro hm
    unfold getStreamOpenAIResponse initOpenAIStream
    simp [getModel_err_none, hprompt, hcreate, hchunks, hm,
      streamLoop_normal o.post hpost frags 0]

/-- Witness for C9: after the fragment "He", the receive fails with a
non-EOF error; the only push is the fragment and the call ends with the
stream error, no sentinel. -/
theorem c9_sentinel_discipline_witness :
    (getStreamOpenAIResponse oracleStreamFail reqStream).pushes =
      ["He"].map replaceConfusables
    ∧ (getStreamOpenAIResponse oracleStreamFail reqStream).result =
        .err ("Stream error: " ++ "connection reset") :=
  (c9_sentinel_discipline oracleStreamFail reqStream ["He"] (by decide) rfl rfl
    (fun _ => rfl)).1 "connection reset" rfl

/-! Claim C3. -/

/-- Claim C3: integer extraction finds the first fully delimited maximal
digit run — on "prefix [[42]] suffix" it yields 42 and on
"[[7]] and [[9]]" it yields 7 (first match only) — and when the upstream
answer has no delimited digit run, the int-mode strategy pushes nothing
and fails with the parse error carrying the full untruncated answer
text. -/
theorem c3_int_extraction (o : Oracle) (req : Request) (s : String)
    (choice : ChatCompletionChoice) (rest : List ChatCompletionChoice)
    (c : ChatCompletionResponse)
    (hprompt : o.getenv req.promptTemplate ≠ "")
    (hcomp : o.completion = .ok c)
    (hch : c.choices = choice :: rest)
    (hcontent : choice.message.content = s) :
    (findIntMatch ("prefix [[42]] suffix".data)).map digitsToNat = some 42
    ∧ (findIntMatch ("[[7]] and [[9]]".data)).map digitsToNat = some 7
    ∧ (findIntMatch s.data = none →
        (getIntOpenAIResponse o req).pushes = []
        ∧ (getIntOpenAIResponse o req).result =
            .err ("Can't parse OpenAI API response: " ++ s)) := by
  refine ⟨by decide, by decide, ?_⟩
  intro hnone
  unfold getIntOpenAIResponse initOpenAIRequest
  simp [getModel_err_none, hprompt, hcomp, hch, hcontent, hnone]

/-- Witness for C3 at the concrete no-match answer "No number here.". -/
theorem c3_int_extraction_witness :
    (findIntMatch ("prefix [[42]] suffix".data)).map digitsToNat = some 42
    ∧ (getIntOpenAIResponse oracleIntNoMatch reqInt).pushes = []
    ∧ (getIntOpenAIResponse oracleIntNoMatch reqInt).result =
        .err ("Can't parse OpenAI API response: " ++ "No number here.") :=
  have h := c3_int_extraction oracleIntNoMatch reqInt "No number here."
    ⟨⟨"assistant", "No number here."⟩⟩ [] ⟨[⟨⟨"assistant", "No number here."⟩⟩]⟩
    (by decide) rfl rfl rfl
  ⟨h.1, (h.2.2 (by decide)).1, (h.2.2 (by decide)).2⟩

/-! Claim C4. -/

/-- Claim C4: word-sequence extraction returns the first delimited run of
word characters and interior whitespace — on a text containing
"[[hello world]]" it yields "hello world" including the interior space and
nothing else — and on a text with no bracket delimiter at all it finds no
match (the NoMatch failure). -/
theorem c4_string_extraction (s : String) :
    findStringMatch ("some text [[hello world]] more".data) = some ("hello world".data)
    ∧ ((∀ ch ∈ s.data, ch ≠ '[') → findStringMatch s.data = none) :=
  ⟨by decide, findStringMatch_no_bracket s.data⟩

/-- Witness for C4 at the concrete bracket-free text "no brackets here". -/
theorem c4_string_extraction_witness :
    findStringMatch ("some text [[hello world]] more".data) = some ("hello world".data)
    ∧ findStringMatch ("no brackets here".data) = none :=
  ⟨(c4_string_extraction "no brackets here").1,
    (c4_string_extraction "no brackets here").2 (by decide)⟩

/-! Claim C7. -/

/-- Oracle with a configured (and advertised) model name, so that model
resolution performs the upstream model-listing call, and an environment in
which every prompt variable is empty. -/
def oracleModelConfigured : Oracle :=
  ⟨fun _ => "", "gpt-4", .ok [⟨"gpt-4"⟩], .ok emptyResponse, .ok (), [], none,
    fun _ => .ok ()⟩

/-- Claim C7 counterexample: with a nonempty configured model name the
model-listing upstream call is made BEFORE the empty-template check
(src/main.go line 258 precedes lines 264-267), so a call with an empty
resolved template fails with the missing-prompt (ConfigMissing) error
although an upstream call has already been made — refuting "fails ...
before any upstream call". -/
theorem c7_counterexample :
    (initOpenAIRequest oracleModelConfigured "PROMPT_X" []).response =
      .error ("Prompt not found in the environment variable " ++ "PROMPT_X")
    ∧ (initOpenAIRequest oracleModelConfigured "PROMPT_X" []).calls =
        [.listModels]
    ∧ (initOpenAIRequest oracleModelConfigured "PROMPT_X" []).calls ≠ [] :=
  ⟨rfl, rfl, by decide⟩

/-- Claim C7 (amended): for a nonempty resolved template the message
sequence sent upstream is exactly one system entry carrying the template
followed by all caller turns in original order with original roles; for an
empty resolved template the call fails with the missing-prompt
(ConfigMissing) error and no chat-completion upstream call is made (though
the model-list call may already have happened). -/
theorem c7_prompt_assembly (o : Oracle) (pv : String) (cms : List chatMessage) :
    (o.getenv pv ≠ "" →
      (initOpenAIRequest o pv cms).calls =
        (getModel o.configModel o.listModels).calls ++
          [.chatCompletion (getModel o.configModel o.listModels).model
            (⟨"system", o.getenv pv⟩ :: cms.map (fun v => ⟨v.role, v.content⟩))])
    ∧ (o.getenv pv = "" →
      (initOpenAIRequest o pv cms).response =
        .error ("Prompt not found in the environment variable " ++ pv)
      ∧ ∀ m msgs, UpstreamCall.chatCompletion m msgs ∉
          (initOpenAIRequest o pv cms).calls) := by
  constructor
  · intro hp
    unfold initOpenAIRequest
    rcases hc : o.completion with e | r <;>
      simp [getModel_err_none, hp, hc, toCompletionMessages]
  · intro hp
    unfold initOpenAIRequest
    simp [getModel_err_none, hp]
    intro m msgs
    rcases getModel_calls o.configModel o.listModels with h | h <;> simp [h]

/-- Witness for the amended C7: a nonempty template with one caller turn
yields the system-first message sequence in the recorded completion
call. -/
theorem c7_prompt_assembly_witness :
    (initOpenAIRequest oracleIntOk "P" [⟨"user", "Hi"⟩]).calls =
      (getModel oracleIntOk.configModel oracleIntOk.listModels).calls ++
        [.chatCompletion (getModel oracleIntOk.configModel oracleIntOk.listModels).model
          (⟨"system", oracleIntOk.getenv "P"⟩ ::
            ([⟨"user", "Hi"⟩] : List chatMessage).map (fun v => ⟨v.role, v.content⟩))] :=
  (c7_prompt_assembly oracleIntOk "P" [⟨"user", "Hi"⟩]).1 (by decide)

end OpenAIProxy

